import Mathlib

/- Shallow embedding of the LumiCloneApp Bluetooth layer.

   Source files:
   - src/utils/bluetooth.ts        (Bluetooth Adapter Module + Callback Registry)
   - src/screens/BluetoothScreen   (Onboarding Screen state machine)
   - src/contexts/BluetoothContext.tsx (Context Provider)

   The platform (Web Bluetooth) is modelled as an environment `Env` that says,
   for each awaited platform call, whether it succeeds or rejects (and with
   which message).  Module-scoped mutable handles become an explicit `BTState`
   threaded through the operations.  Invocations of the registered callbacks
   are recorded as a list of `BTEvent`s, in invocation order. -/

namespace LumiBT

/-- Mirror of the exported `BluetoothDevice` interface (bluetooth.ts lines 4-8). -/
structure BluetoothDevice where
  id : String
  name : String
  connected : Bool
deriving DecidableEq, Repr

/-- A platform device object as returned by `navigator.bluetooth.requestDevice`:
    it carries an id, an optional name, and the mutable `gatt.connected` flag. -/
structure PlatformDevice where
  id : String
  name : Option String
  gattConnected : Bool
deriving DecidableEq, Repr

/-- The errors the adapter can throw.  The three `new Error(...)` sites in
    bluetooth.ts get their own constructors; errors produced by rejected
    platform calls carry the platform's message. -/
inductive BTError where
  | notSupported
  | notConnected
  | noPriorDevice
  | platform (msg : String)
deriving DecidableEq, Repr

/-- The `.message` of each error, as the screen reads it (`err.message`). -/
def errMessage : BTError → String
  | BTError.notSupported => "Bluetooth no está soportado en este navegador"
  | BTError.notConnected => "No hay conexión con el dispositivo"
  | BTError.noPriorDevice => "No hay dispositivo previo para reconectar"
  | BTError.platform m => m

/-- One invocation of a registered callback (`callbacks.onX?.(...)`). -/
inductive BTEvent where
  | onConnected (device : BluetoothDevice)
  | onDisconnected
  | onError (error : BTError)
  | onDataReceived (data : String)
deriving DecidableEq, Repr

/-- The four module-scoped connection handles (bluetooth.ts lines 24-27).
    Server, service and characteristic handles are opaque, so they are
    modelled as nullable `Option Unit`. -/
structure BTState where
  bluetoothDevice : Option PlatformDevice
  bluetoothServer : Option Unit
  bluetoothService : Option Unit
  bluetoothCharacteristic : Option Unit
deriving DecidableEq, Repr

/-- The initial module state: all four handles are null. -/
def emptyState : BTState :=
  { bluetoothDevice := none
    bluetoothServer := none
    bluetoothService := none
    bluetoothCharacteristic := none }

/-- The platform environment: presence of the Web Bluetooth API and the
    outcome of each awaited platform call (`Except.error m` = the promise
    rejects with message `m`). -/
structure Env where
  bluetoothAvailable : Bool
  requestDevice : Except String PlatformDevice
  gattConnect : Except String Unit
  getPrimaryService : Except String Unit
  getCharacteristic : Except String Unit
  startNotifications : Except String Unit
  writeValue : Except String Unit

/-- `isBluetoothSupported` (bluetooth.ts lines 43-49): reports whether
    `navigator.bluetooth` is present; no side effects. -/
def isBluetoothSupported (env : Env) : Bool :=
  env.bluetoothAvailable

/-- JS `bluetoothDevice.name || 'Arduino'`: `undefined` and the empty string
    are falsy, so both fall back to `'Arduino'`. -/
def displayName : Option String → String
  | none => "Arduino"
  | some s => if s = "" then "Arduino" else s

deriving instance DecidableEq for Except

/-- Outcome of `connectToArduino`: the returned/thrown value, the module
    state afterwards, the callback invocations in order, and whether the
    platform device chooser (`requestDevice`) was presented. -/
structure ConnectOutcome where
  result : Except BTError BluetoothDevice
  state : BTState
  events : List BTEvent
  chooserPresented : Bool
deriving DecidableEq, Repr

/-- `connectToArduino` (bluetooth.ts lines 52-114).  Follows the source
    control flow step by step: unsupported check, device chooser, GATT
    connect, primary service, characteristic, startNotifications; each
    failure inside the `try` is caught, reported via `onError`, and
    rethrown.  Assignments to the module handles happen exactly where the
    source assigns them, so a mid-way failure leaves the earlier handles
    set. -/
def connectToArduino (env : Env) (s : BTState) : ConnectOutcome :=
  if isBluetoothSupported env = false then
    -- lines 53-57: fail immediately, notify onError, throw
    { result := Except.error BTError.notSupported
      state := s
      events := [BTEvent.onError BTError.notSupported]
      chooserPresented := false }
  else if isBluetoothSupported env = false then
    -- lines 63-68: redundant re-check of navigator.bluetooth inside the
    -- try block; unreachable because the guard above already returned.
    -- (Its throw would be caught by the catch at line 109, invoking
    -- onError a second time.)
    { result := Except.error (BTError.platform "Web Bluetooth API is not available in this browser.")
      state := s
      events := [BTEvent.onError (BTError.platform "Web Bluetooth API is not available in this browser."),
                 BTEvent.onError (BTError.platform "Web Bluetooth API is not available in this browser.")]
      chooserPresented := false }
  else
    match env.requestDevice with
    | Except.error m =>
      -- chooser dismissed / rejected: the assignment at line 71 never
      -- happens, the catch invokes onError and rethrows
      { result := Except.error (BTError.platform m)
        state := s
        events := [BTEvent.onError (BTError.platform m)]
        chooserPresented := true }
    | Except.ok pd =>
      -- line 71: bluetoothDevice = await bt.requestDevice(...)
      let s1 : BTState := { s with bluetoothDevice := some pd }
      match env.gattConnect with
      | Except.error m =>
        { result := Except.error (BTError.platform m)
          state := s1
          events := [BTEvent.onError (BTError.platform m)]
          chooserPresented := true }
      | Except.ok _ =>
        -- line 87: bluetoothServer = await bluetoothDevice.gatt.connect()
        -- (the platform marks the device object gatt.connected = true)
        let s2 : BTState := { s1 with
          bluetoothDevice := some { pd with gattConnected := true }
          bluetoothServer := some () }
        match env.getPrimaryService with
        | Except.error m =>
          { result := Except.error (BTError.platform m)
            state := s2
            events := [BTEvent.onError (BTError.platform m)]
            chooserPresented := true }
        | Except.ok _ =>
          -- line 90: bluetoothService = await ...getPrimaryService(...)
          let s3 : BTState := { s2 with bluetoothService := some () }
          match env.getCharacteristic with
          | Except.error m =>
            { result := Except.error (BTError.platform m)
              state := s3
              events := [BTEvent.onError (BTError.platform m)]
              chooserPresented := true }
          | Except.ok _ =>
            -- line 93: bluetoothCharacteristic = await ...getCharacteristic(...)
            let s4 : BTState := { s3 with bluetoothCharacteristic := some () }
            match env.startNotifications with
            | Except.error m =>
              { result := Except.error (BTError.platform m)
                state := s4
                events := [BTEvent.onError (BTError.platform m)]
                chooserPresented := true }
            | Except.ok _ =>
              -- lines 99-108: build the Device Record, invoke onConnected,
              -- return it
              let device : BluetoothDevice :=
                { id := pd.id, name := displayName pd.name, connected := true }
              { result := Except.ok device
                state := s4
                events := [BTEvent.onConnected device]
                chooserPresented := true }

/-- Outcome of `disconnectFromArduino`: whether a platform-level
    `gatt.disconnect()` was requested, and the module state afterwards. -/
structure DisconnectOutcome where
  requestedPlatformDisconnect : Bool
  state : BTState
deriving DecidableEq, Repr

/-- `disconnectFromArduino` (bluetooth.ts lines 117-127): requests a
    platform disconnect only when a device handle exists and its GATT layer
    reports connected; always nulls all four handles afterwards. -/
def disconnectFromArduino (s : BTState) : DisconnectOutcome :=
  { requestedPlatformDisconnect :=
      match s.bluetoothDevice with
      | some pd => pd.gattConnected
      | none => false
    state :=
      { bluetoothDevice := none
        bluetoothServer := none
        bluetoothService := none
        bluetoothCharacteristic := none } }

/-- `isConnected` (bluetooth.ts lines 130-132). -/
def isConnected (s : BTState) : Bool :=
  match s.bluetoothDevice with
  | some pd => pd.gattConnected
  | none => false

/-- UTF-8 bytes of a string, as produced by `new TextEncoder().encode(data)`. -/
def utf8Bytes (s : String) : List UInt8 :=
  s.toUTF8.toList

/-- Outcome of `sendToArduino`: result, state, callback invocations, and the
    byte payloads of the GATT writes that were attempted. -/
structure SendOutcome where
  result : Except BTError Unit
  state : BTState
  events : List BTEvent
  writes : List (List UInt8)
deriving DecidableEq, Repr

/-- `sendToArduino` (bluetooth.ts lines 135-149): throws `NotConnected`
    when no characteristic handle is held; otherwise UTF-8 encodes the data
    and performs one `writeValue`.  Note the catch block only logs and
    rethrows: no `onError` invocation on either failure path. -/
def sendToArduino (env : Env) (s : BTState) (data : String) : SendOutcome :=
  match s.bluetoothCharacteristic with
  | none =>
    { result := Except.error BTError.notConnected
      state := s
      events := []
      writes := [] }
  | some _ =>
    match env.writeValue with
    | Except.ok _ =>
      { result := Except.ok ()
        state := s
        events := []
        writes := [utf8Bytes data] }
    | Except.error m =>
      { result := Except.error (BTError.platform m)
        state := s
        events := []
        writes := [utf8Bytes data] }

/-- Outcome of an internal handler: resulting state and callback invocations. -/
structure HandlerOutcome where
  state : BTState
  events : List BTEvent
deriving DecidableEq, Repr

/-- The internal disconnection handler `onDisconnected` (bluetooth.ts lines
    162-170), invoked by the platform on `gattserverdisconnected`: invokes
    the registered `onDisconnected` callback, then nulls all four handles. -/
def onDisconnected (_s : BTState) : HandlerOutcome :=
  { state :=
      { bluetoothDevice := none
        bluetoothServer := none
        bluetoothService := none
        bluetoothCharacteristic := none }
    events := [BTEvent.onDisconnected] }

/-- `getCurrentDevice` (bluetooth.ts lines 173-181): synchronous snapshot
    of the in-memory device handle; `connected` mirrors
    `bluetoothDevice.gatt?.connected || false`. -/
def getCurrentDevice (s : BTState) : Option BluetoothDevice :=
  match s.bluetoothDevice with
  | none => none
  | some pd =>
    some { id := pd.id, name := displayName pd.name, connected := pd.gattConnected }

/-- Outcome of `reconnectToArduino`. -/
structure ReconnectOutcome where
  result : Except BTError BluetoothDevice
  state : BTState
  events : List BTEvent
deriving DecidableEq, Repr

/-- `reconnectToArduino` (bluetooth.ts lines 184-211): throws
    `NoPriorDevice` (outside the try block, so without invoking `onError`)
    when no device handle is held; otherwise repeats the GATT connect →
    service → characteristic → subscribe sequence on the held device. -/
def reconnectToArduino (env : Env) (s : BTState) : ReconnectOutcome :=
  match s.bluetoothDevice with
  | none =>
    { result := Except.error BTError.noPriorDevice, state := s, events := [] }
  | some pd =>
    match env.gattConnect with
    | Except.error m =>
      { result := Except.error (BTError.platform m)
        state := s
        events := [BTEvent.onError (BTError.platform m)] }
    | Except.ok _ =>
      let s1 : BTState := { s with
        bluetoothDevice := some { pd with gattConnected := true }
        bluetoothServer := some () }
      match env.getPrimaryService with
      | Except.error m =>
        { result := Except.error (BTError.platform m)
          state := s1
          events := [BTEvent.onError (BTError.platform m)] }
      | Except.ok _ =>
        let s2 : BTState := { s1 with bluetoothService := some () }
        match env.getCharacteristic with
        | Except.error m =>
          { result := Except.error (BTError.platform m)
            state := s2
            events := [BTEvent.onError (BTError.platform m)] }
        | Except.ok _ =>
          let s3 : BTState := { s2 with bluetoothCharacteristic := some () }
          match env.startNotifications with
          | Except.error m =>
            { result := Except.error (BTError.platform m)
              state := s3
              events := [BTEvent.onError (BTError.platform m)] }
          | Except.ok _ =>
            let device : BluetoothDevice :=
              { id := pd.id, name := displayName pd.name, connected := true }
            { result := Except.ok device
              state := s3
              events := [BTEvent.onConnected device] }

/- Callback Registry (bluetooth.ts lines 29-40).  The four handler slots have
   different function types in the source; the merge semantics of
   `setBluetoothCallbacks` is independent of them, so the slots are type
   parameters here.  `none` models an absent key. -/

/-- Mirror of the `BluetoothConnectionCallbacks` interface: at most one
    handler per event name. -/
structure BluetoothConnectionCallbacks (A B C D : Type) where
  onConnected : Option A
  onDisconnected : Option B
  onError : Option C
  onDataReceived : Option D
deriving DecidableEq, Repr

/-- One key of the object spread `\x7b ...callbacks, ...newCallbacks \x7d`:
    a key present in the new object wins, an absent key keeps the old value. -/
def mergeOpt (old new : Option A) : Option A :=
  match new with
  | some h => some h
  | none => old

/-- `setBluetoothCallbacks` (bluetooth.ts lines 38-40):
    `callbacks = \x7b ...callbacks, ...newCallbacks \x7d`. -/
def setBluetoothCallbacks (cur new : BluetoothConnectionCallbacks A B C D) :
    BluetoothConnectionCallbacks A B C D :=
  { onConnected := mergeOpt cur.onConnected new.onConnected
    onDisconnected := mergeOpt cur.onDisconnected new.onDisconnected
    onError := mergeOpt cur.onError new.onError
    onDataReceived := mergeOpt cur.onDataReceived new.onDataReceived }

/- Onboarding Screen (BluetoothScreen).  The component state and the
   callbacks it registers (lines 31-50), plus the `handleConnect` handler
   (lines 62-74).  The screen's `setBluetoothCallbacks` call provides
   onConnected / onDisconnected / onError only; onDataReceived is omitted. -/

/-- The `ConnectionState` union type (BluetoothScreen line 17). -/
inductive ConnectionState where
  | idle
  | searching
  | connecting
  | connected
  | error
deriving DecidableEq, Repr

/-- The component state of `BluetoothScreen`: `connectionState`,
    `connectedDevice` and `error` (lines 20-22). -/
structure ScreenState where
  connectionState : ConnectionState
  connectedDevice : Option BluetoothDevice
  errorMsg : Option String
deriving DecidableEq, Repr

/-- Effect on the screen state of one adapter callback invocation, as wired
    by the `setBluetoothCallbacks` effect (BluetoothScreen lines 31-50):
    onConnected stores the device and moves to `connected`; onDisconnected
    moves to `idle`; onError stores `err.message` and moves to `error`;
    onDataReceived has no handler on this screen. -/
def screenApplyEvent (u : ScreenState) : BTEvent → ScreenState
  | BTEvent.onConnected d =>
    { u with
      connectedDevice := some d
      connectionState := ConnectionState.connected
      errorMsg := none }
  | BTEvent.onDisconnected =>
    { u with connectionState := ConnectionState.idle, connectedDevice := none }
  | BTEvent.onError e =>
    { u with
      errorMsg := some (errMessage e)
      connectionState := ConnectionState.error }
  | BTEvent.onDataReceived _ => u

/-- Outcome of a `handleConnect` click: the adapter outcome, the final
    screen state, and the successive values taken by `connectionState`
    (starting from the state before the click). -/
structure HandleConnectOutcome where
  adapter : ConnectOutcome
  screen : ScreenState
  trace : List ConnectionState
deriving DecidableEq, Repr

/-- `handleConnect` (BluetoothScreen lines 62-74): sets `searching` and
    clears the error, awaits `connectToArduino()` (whose callback
    invocations run before the await resolves), then on success sets
    `connecting` — after the `onConnected` callback already ran — and on
    failure stores the message and sets `error`. -/
def handleConnect (env : Env) (bt : BTState) (u : ScreenState) : HandleConnectOutcome :=
  let u1 : ScreenState := { u with
    connectionState := ConnectionState.searching
    errorMsg := none }
  let out := connectToArduino env bt
  let stepped :=
    out.events.foldl
      (fun (p : ScreenState × List ConnectionState) e =>
        let u2 := screenApplyEvent p.1 e
        (u2, p.2 ++ [u2.connectionState]))
      (u1, [])
  let final : ScreenState :=
    match out.result with
    | Except.ok _ => { stepped.1 with connectionState := ConnectionState.connecting }
    | Except.error e =>
      { stepped.1 with
        errorMsg := some (errMessage e)
        connectionState := ConnectionState.error }
  { adapter := out
    screen := final
    trace := u.connectionState :: ConnectionState.searching ::
      (stepped.2 ++ [final.connectionState]) }

/-- The auto-advance effect (BluetoothScreen lines 53-60): the `onNext`
    timer is scheduled exactly when the settled connection state is
    `connected`. -/
def autoAdvanceScheduled (u : ScreenState) : Bool :=
  match u.connectionState with
  | ConnectionState.connected => true
  | _ => false

/- Concrete inputs used by witnesses and counterexamples. -/

/-- A concrete chooser result. -/
def pdLumi : PlatformDevice :=
  { id := "d1", name := some "Lumi", gattConnected := false }

/-- An environment where every platform call succeeds. -/
def okEnv : Env :=
  { bluetoothAvailable := true
    requestDevice := Except.ok pdLumi
    gattConnect := Except.ok ()
    getPrimaryService := Except.ok ()
    getCharacteristic := Except.ok ()
    startNotifications := Except.ok ()
    writeValue := Except.ok () }

/-- An environment where the chooser succeeds but the GATT connect rejects. -/
def gattFailEnv : Env :=
  { okEnv with gattConnect := Except.error "GATT connection failed" }

/-- The screen state before any interaction. -/
def idleScreen : ScreenState :=
  { connectionState := ConnectionState.idle
    connectedDevice := none
    errorMsg := none }

/- Theorems. -/

/-- Claim C1: every call to `disconnectFromArduino`, whatever the module
    state it runs in and regardless of whether a platform-level disconnect
    was requested, leaves all four connection handles null and makes
    `getCurrentDevice` return null; calling it when already disconnected
    leaves the module state unchanged (and requests no platform
    disconnect). -/
theorem disconnect_clears_state (s : BTState) :
    (disconnectFromArduino s).state = emptyState
  ∧ (disconnectFromArduino s).state.bluetoothDevice = none
  ∧ (disconnectFromArduino s).state.bluetoothServer = none
  ∧ (disconnectFromArduino s).state.bluetoothService = none
  ∧ (disconnectFromArduino s).state.bluetoothCharacteristic = none
  ∧ getCurrentDevice (disconnectFromArduino s).state = none
  ∧ (disconnectFromArduino emptyState).state = emptyState
  ∧ (disconnectFromArduino emptyState).requestedPlatformDisconnect = false :=
  ⟨rfl, rfl, rfl, rfl, rfl, rfl, rfl, rfl⟩

/-- Claim C2: `sendToArduino` fails with the NotConnected error exactly when
    no characteristic handle is held (leaving the state untouched and
    performing no write); when a characteristic handle is held it attempts
    exactly one GATT write whose payload is the UTF-8 encoding of the
    string, succeeding when the platform write succeeds.  In particular it
    fails with NotConnected from the initial state and after any
    disconnect. -/
theorem sendToArduino_spec (env : Env) (s : BTState) (d : String) :
    sendToArduino env { s with bluetoothCharacteristic := none } d =
      { result := Except.error BTError.notConnected
        state := { s with bluetoothCharacteristic := none }
        events := []
        writes := [] }
  ∧ (sendToArduino env { s with bluetoothCharacteristic := some () } d).writes = [utf8Bytes d]
  ∧ (sendToArduino env { s with bluetoothCharacteristic := some () } d).result ≠
      Except.error BTError.notConnected
  ∧ sendToArduino { env with writeValue := Except.ok () }
      { s with bluetoothCharacteristic := some () } d =
      { result := Except.ok ()
        state := { s with bluetoothCharacteristic := some () }
        events := []
        writes := [utf8Bytes d] }
  ∧ (sendToArduino env emptyState d).result = Except.error BTError.notConnected
  ∧ (sendToArduino env (disconnectFromArduino s).state d).result =
      Except.error BTError.notConnected := by
  refine ⟨rfl, ?_, ?_, rfl, rfl, rfl⟩ <;>
    cases h : env.writeValue <;> simp [sendToArduino, h]

/-- Claim C2 witness: with a characteristic handle held, sending "48"
    attempts exactly one write whose payload is the UTF-8 encoding of
    "48". -/
theorem sendToArduino_spec_witness :
    (sendToArduino okEnv { emptyState with bluetoothCharacteristic := some () } "48").writes =
      [utf8Bytes "48"] :=
  (sendToArduino_spec okEnv emptyState "48").2.1

/-- Claim C3 counterexample: a fully successful `connectToArduino` followed
    by `disconnectFromArduino` does NOT leave a device handle behind: the
    subsequent `reconnectToArduino` fails with the NoPriorDevice error,
    contradicting the claim that the handle survives a graceful disconnect. -/
theorem connect_disconnect_reconnect_run :
    (connectToArduino okEnv emptyState).result =
      Except.ok { id := "d1", name := "Lumi", connected := true }
  ∧ (reconnectToArduino okEnv
      (disconnectFromArduino (connectToArduino okEnv emptyState).state).state).result =
      Except.error BTError.noPriorDevice := by
  exact ⟨rfl, rfl⟩

/-- Claim C3 (amended): the device handle does not survive a graceful
    disconnect — `disconnectFromArduino` clears it, so after a connect
    followed by disconnect, a subsequent `reconnectToArduino` fails with
    NoPriorDevice instead of repeating the connection sequence. -/
theorem reconnect_after_disconnect_noPriorDevice (env env2 : Env) (s : BTState) :
    (disconnectFromArduino (connectToArduino env s).state).state.bluetoothDevice = none
  ∧ reconnectToArduino env2 (disconnectFromArduino (connectToArduino env s).state).state =
      { result := Except.error BTError.noPriorDevice
        state := (disconnectFromArduino (connectToArduino env s).state).state
        events := [] } :=
  ⟨rfl, rfl⟩

/-- Claim C4 counterexample: failing executions of `sendToArduino` invoke no
    callback at all — neither the NotConnected throw (no characteristic)
    nor a rejected platform write reaches `onError` — refuting the claim
    that every failing Adapter Module operation invokes `onError`. -/
theorem sendToArduino_failure_without_onError :
    (sendToArduino okEnv emptyState "48").result = Except.error BTError.notConnected
  ∧ (sendToArduino okEnv emptyState "48").events = []
  ∧ (sendToArduino { okEnv with writeValue := Except.error "write failed" }
      (connectToArduino okEnv emptyState).state "48").result =
      Except.error (BTError.platform "write failed")
  ∧ (sendToArduino { okEnv with writeValue := Except.error "write failed" }
      (connectToArduino okEnv emptyState).state "48").events = [] :=
  ⟨rfl, rfl, rfl, rfl⟩

/-- Claim C4 (amended): no operation swallows an error — every failure is
    rethrown to the caller — but `onError` is invoked only by
    `connectToArduino` (on every failure) and by `reconnectToArduino` for
    failures past its NoPriorDevice guard; the NoPriorDevice throw and both
    failure paths of `sendToArduino` rethrow without invoking `onError`. -/
theorem error_propagation_policy (env : Env) (s : BTState) (pd : PlatformDevice)
    (e : BTError) (d : String) :
    ((connectToArduino env s).result = Except.error e →
      (connectToArduino env s).events = [BTEvent.onError e])
  ∧ ((reconnectToArduino env { s with bluetoothDevice := some pd }).result =
        Except.error e →
      (reconnectToArduino env { s with bluetoothDevice := some pd }).events =
        [BTEvent.onError e])
  ∧ (reconnectToArduino env { s with bluetoothDevice := none } =
      { result := Except.error BTError.noPriorDevice
        state := { s with bluetoothDevice := none }
        events := [] })
  ∧ ((sendToArduino env s d).result = Except.error e →
      (sendToArduino env s d).events = []) := by
  rcases env with ⟨avail, req, gc, svc, ch, nt, wv⟩
  refine ⟨?_, ?_, rfl, ?_⟩
  · cases avail <;> cases req <;> cases gc <;> cases svc <;> cases ch <;> cases nt <;>
      (intro h; simp_all [connectToArduino, isBluetoothSupported])
  · cases gc <;> cases svc <;> cases ch <;> cases nt <;>
      (intro h; simp_all [reconnectToArduino])
  · intro _
    rcases s with ⟨dev, srv, sv, chr⟩
    cases chr <;> cases wv <;> simp [sendToArduino]

/-- Claim C4 witness: with a rejecting GATT connect, `connectToArduino`
    invokes `onError` with exactly the rethrown error. -/
theorem error_propagation_policy_witness :
    (connectToArduino gattFailEnv emptyState).events =
      [BTEvent.onError (BTError.platform "GATT connection failed")] :=
  (error_propagation_policy gattFailEnv emptyState pdLumi
    (BTError.platform "GATT connection failed") "48").1 rfl

/-- Claim C5: on a fully successful connect initiated from the idle screen,
    `onConnected` fires exactly once with a Device Record whose `connected`
    field is true, but the screen's connection state passes through
    idle → searching → connected → connecting: `handleConnect` overwrites
    the `connected` state with `connecting` after the await resolves, so
    the run ends in `connecting`, not `connected`, and the auto-advance
    timer (gated on `connected`) is never scheduled. -/
theorem handleConnect_success_run :
    (handleConnect okEnv emptyState idleScreen).adapter.events =
      [BTEvent.onConnected { id := "d1", name := "Lumi", connected := true }]
  ∧ (handleConnect okEnv emptyState idleScreen).trace =
      [ConnectionState.idle, ConnectionState.searching,
       ConnectionState.connected, ConnectionState.connecting]
  ∧ (handleConnect okEnv emptyState idleScreen).screen.connectionState =
      ConnectionState.connecting
  ∧ (handleConnect okEnv emptyState idleScreen).screen.connectionState ≠
      ConnectionState.connected
  ∧ autoAdvanceScheduled (handleConnect okEnv emptyState idleScreen).screen = false :=
  ⟨rfl, rfl, rfl, by decide, rfl⟩

/-- Claim C6: `setBluetoothCallbacks` has merge-on-set semantics: a handler
    provided by a first registration survives a second registration that
    omits that key (so registrations with disjoint key sets preserve each
    other's handlers); in general an omitted key retains its previous
    handler and a provided key is overwritten. -/
theorem setBluetoothCallbacks_merge (A B C D : Type)
    (cur r1 r2 : BluetoothConnectionCallbacks A B C D) :
    (∀ a, r1.onConnected = some a → r2.onConnected = none →
      (setBluetoothCallbacks (setBluetoothCallbacks cur r1) r2).onConnected = some a)
  ∧ (∀ b, r1.onDisconnected = some b → r2.onDisconnected = none →
      (setBluetoothCallbacks (setBluetoothCallbacks cur r1) r2).onDisconnected = some b)
  ∧ (∀ c, r1.onError = some c → r2.onError = none →
      (setBluetoothCallbacks (setBluetoothCallbacks cur r1) r2).onError = some c)
  ∧ (∀ d, r1.onDataReceived = some d → r2.onDataReceived = none →
      (setBluetoothCallbacks (setBluetoothCallbacks cur r1) r2).onDataReceived = some d)
  ∧ (r2.onConnected = none →
      (setBluetoothCallbacks (setBluetoothCallbacks cur r1) r2).onConnected =
        (setBluetoothCallbacks cur r1).onConnected)
  ∧ (r2.onDisconnected = none →
      (setBluetoothCallbacks (setBluetoothCallbacks cur r1) r2).onDisconnected =
        (setBluetoothCallbacks cur r1).onDisconnected)
  ∧ (r2.onError = none →
      (setBluetoothCallbacks (setBluetoothCallbacks cur r1) r2).onError =
        (setBluetoothCallbacks cur r1).onError)
  ∧ (r2.onDataReceived = none →
      (setBluetoothCallbacks (setBluetoothCallbacks cur r1) r2).onDataReceived =
        (setBluetoothCallbacks cur r1).onDataReceived)
  ∧ (∀ a, r2.onConnected = some a →
      (setBluetoothCallbacks (setBluetoothCallbacks cur r1) r2).onConnected = some a)
  ∧ (∀ b, r2.onDisconnected = some b →
      (setBluetoothCallbacks (setBluetoothCallbacks cur r1) r2).onDisconnected = some b)
  ∧ (∀ c, r2.onError = some c →
      (setBluetoothCallbacks (setBluetoothCallbacks cur r1) r2).onError = some c)
  ∧ (∀ d, r2.onDataReceived = some d →
      (setBluetoothCallbacks (setBluetoothCallbacks cur r1) r2).onDataReceived = some d) := by
  refine ⟨?_, ?_, ?_, ?_, ?_, ?_, ?_, ?_, ?_, ?_, ?_, ?_⟩ <;>
    intros <;> simp_all [setBluetoothCallbacks, mergeOpt]

/-- A concrete registry already holding an onDisconnected handler. -/
def curNat : BluetoothConnectionCallbacks Nat Nat Nat Nat :=
  { onConnected := none, onDisconnected := some 1, onError := none, onDataReceived := none }

/-- A first registration providing only onConnected. -/
def regNat1 : BluetoothConnectionCallbacks Nat Nat Nat Nat :=
  { onConnected := some 7, onDisconnected := none, onError := none, onDataReceived := none }

/-- A second registration, disjoint from the first, providing only onError. -/
def regNat2 : BluetoothConnectionCallbacks Nat Nat Nat Nat :=
  { onConnected := none, onDisconnected := none, onError := some 9, onDataReceived := none }

/-- Claim C6 witness: after two registrations with disjoint key sets, the
    handler installed by the first is still registered. -/
theorem setBluetoothCallbacks_merge_witness :
    (setBluetoothCallbacks (setBluetoothCallbacks curNat regNat1) regNat2).onConnected =
      some 7 :=
  (setBluetoothCallbacks_merge Nat Nat Nat Nat curNat regNat1 regNat2).1 7 rfl rfl

/-- Claim C7: `reconnectToArduino` fails with the NoPriorDevice error
    whenever the module holds no device handle — in particular from the
    initial state and after any `disconnectFromArduino` — leaving the state
    unchanged. -/
theorem reconnect_without_device_noPriorDevice (env : Env) (s : BTState) :
    reconnectToArduino env { s with bluetoothDevice := none } =
      { result := Except.error BTError.noPriorDevice
        state := { s with bluetoothDevice := none }
        events := [] }
  ∧ (reconnectToArduino env emptyState).result = Except.error BTError.noPriorDevice
  ∧ (reconnectToArduino env (disconnectFromArduino s).state).result =
      Except.error BTError.noPriorDevice :=
  ⟨rfl, rfl, rfl⟩

/-- Claim C8: whatever state the platform fires the GATT disconnection event
    in, the internal handler invokes the registered `onDisconnected`
    callback and leaves all four connection handles null in the same step. -/
theorem onDisconnected_clears_and_notifies (s : BTState) :
    onDisconnected s = { state := emptyState, events := [BTEvent.onDisconnected] }
  ∧ (onDisconnected s).state.bluetoothDevice = none
  ∧ (onDisconnected s).state.bluetoothServer = none
  ∧ (onDisconnected s).state.bluetoothService = none
  ∧ (onDisconnected s).state.bluetoothCharacteristic = none :=
  ⟨rfl, rfl, rfl, rfl, rfl⟩

/-- Claim C9: when the platform Bluetooth API is absent, `connectToArduino`
    fails immediately with the NotSupported error, invoking `onError` with
    that error and rethrowing it, without touching the connection handles
    and without presenting the device chooser. -/
theorem connect_unsupported_fails_immediately (env : Env) (s : BTState) :
    connectToArduino { env with bluetoothAvailable := false } s =
      { result := Except.error BTError.notSupported
        state := s
        events := [BTEvent.onError BTError.notSupported]
        chooserPresented := false } :=
  rfl

/-- Helper for C10: whenever a device handle is held, `reconnectToArduino`
    never fails with NoPriorDevice. -/
theorem reconnect_with_device_not_noPrior (env : Env) (s : BTState)
    (pd : PlatformDevice) (h : s.bluetoothDevice = some pd) :
    (reconnectToArduino env s).result ≠ Except.error BTError.noPriorDevice := by
  rcases env with ⟨avail, req, gc, svc, ch, nt, wv⟩
  cases gc <;> cases svc <;> cases ch <;> cases nt <;>
    simp [reconnectToArduino, h]

/-- Claim C10: if `connectToArduino` fails after the device chooser resolved
    (during GATT connect, service lookup, characteristic lookup or
    subscription), the module retains the selected device handle:
    `getCurrentDevice` returns a non-null record and a subsequent
    `reconnectToArduino` does not fail with NoPriorDevice. -/
theorem connect_failure_retains_device (env2 : Env) (s : BTState) (pd : PlatformDevice)
    (gc svc ch nt wv : Except String Unit) (e : BTError)
    (hFail : (connectToArduino ⟨true, Except.ok pd, gc, svc, ch, nt, wv⟩ s).result =
      Except.error e) :
    (connectToArduino ⟨true, Except.ok pd, gc, svc, ch, nt, wv⟩ s).state.bluetoothDevice ≠ none
  ∧ getCurrentDevice (connectToArduino ⟨true, Except.ok pd, gc, svc, ch, nt, wv⟩ s).state ≠ none
  ∧ (reconnectToArduino env2
      (connectToArduino ⟨true, Except.ok pd, gc, svc, ch, nt, wv⟩ s).state).result ≠
      Except.error BTError.noPriorDevice := by
  cases gc <;> cases svc <;> cases ch <;> cases nt <;>
    exact ⟨by simp [connectToArduino, isBluetoothSupported],
           by simp [connectToArduino, isBluetoothSupported, getCurrentDevice],
           reconnect_with_device_not_noPrior env2 _ _ rfl⟩

/-- Claim C10 witness: a GATT-connect failure after the chooser selected the
    device leaves the device handle set, a non-null `getCurrentDevice`, and
    a reconnect that does not fail with NoPriorDevice. -/
theorem connect_failure_retains_device_witness :
    (connectToArduino ⟨true, Except.ok pdLumi, Except.error "GATT connection failed",
        Except.ok (), Except.ok (), Except.ok (), Except.ok ()⟩ emptyState).state.bluetoothDevice ≠ none
  ∧ getCurrentDevice (connectToArduino ⟨true, Except.ok pdLumi,
        Except.error "GATT connection failed",
        Except.ok (), Except.ok (), Except.ok (), Except.ok ()⟩ emptyState).state ≠ none
  ∧ (reconnectToArduino okEnv
      (connectToArduino ⟨true, Except.ok pdLumi, Except.error "GATT connection failed",
        Except.ok (), Except.ok (), Except.ok (), Except.ok ()⟩ emptyState).state).result ≠
      Except.error BTError.noPriorDevice :=
  connect_failure_retains_device okEnv emptyState pdLumi
    (Except.error "GATT connection failed")
    (Except.ok ()) (Except.ok ()) (Except.ok ()) (Except.ok ())
    (BTError.platform "GATT connection failed") rfl

end LumiBT
